import Mathlib

/-!
Verification of the ascii-portfolio pixel-art generation pipeline.

This development shallowly embeds the three request-guarding components of
the repository:
  * `src/app/api/generate/route.ts` — the server POST handler
    (`POSThandler` below, with `validateRequest`, `sanitizePrompt`,
    `createRequestHash`, `cleanupProcessedRequests`);
  * `src/lib/retrodiffusion.ts` — the client-side request guard
    (`generatePixelArt` below);
  * `src/middleware.ts` — the per-IP rate limiting and security-header
    middleware (`middlewareModel` below).

JavaScript strings are modelled as Lean `String`s, `Date.now()` timestamps
as `Nat` milliseconds, JS objects / `Map`s used as dictionaries as
insertion-ordered association lists, and the network as explicit oracle
arguments (`FetchOutcome`, `UpstreamOutcome`).  Each translated definition
follows the corresponding source function branch by branch.
-/

set_option maxRecDepth 10000

/-! ## Generic association-list dictionaries (JS objects / Maps) -/

/-- Lookup in an insertion-ordered dictionary (first binding wins,
matching JS object / `Map` semantics where keys are unique). -/
def alookup {α : Type} : List (String × α) → String → Option α
  | [], _ => none
  | e :: rest, k => if e.1 = k then some e.2 else alookup rest k

/-- `obj[k] = v` / `map.set(k, v)`: update an existing binding in place,
otherwise append a new binding (JS insertion-order semantics). -/
def aupsert {α : Type} : List (String × α) → String → α → List (String × α)
  | [], k, v => [(k, v)]
  | e :: rest, k, v => if e.1 = k then (k, v) :: rest else e :: aupsert rest k v

theorem alookup_aupsert {α : Type} (l : List (String × α)) (k : String) (v : α) :
    alookup (aupsert l k v) k = some v := by
  induction l with
  | nil => simp [aupsert, alookup]
  | cons e rest ih =>
    by_cases h : e.1 = k
    · simp [aupsert, alookup, h]
    · simp [aupsert, alookup, h, ih]

/-! ## JS string primitives -/

/-- `String.prototype.trim()`: strip leading and trailing whitespace. -/
def jsTrim (s : String) : String :=
  ⟨((s.data.dropWhile Char.isWhitespace).reverse.dropWhile Char.isWhitespace).reverse⟩

/-- `String.prototype.toLowerCase()` (ASCII-adequate model). -/
def jsToLower (s : String) : String := ⟨s.data.map Char.toLower⟩

/-- `String.prototype.includes(pat)`: case-sensitive substring test. -/
def containsSub (s pat : String) : Bool := decide (pat.data <:+: s.data)

/-- Case-insensitive substring test, modelling a `/pat/i` regex test for a
pattern `pat` that is a plain lowercase literal. -/
def containsCI (s pat : String) : Bool := containsSub (jsToLower s) pat

/-! ## `src/app/api/generate/route.ts`: helpers -/

/-- `MAX_PROMPT_LENGTH` (route.ts line 4). -/
def MAX_PROMPT_LENGTH : Nat := 1000

/-- `DUPLICATE_REQUEST_WINDOW` (route.ts line 10): 10 seconds in ms. -/
def DUPLICATE_REQUEST_WINDOW : Nat := 10 * 1000

/-- `cleanupProcessedRequests` (route.ts lines 13-20): drop every dedup
entry whose timestamp is older than the duplicate-request window. -/
def cleanupProcessedRequests (st : List (String × Nat)) (now : Nat) :
    List (String × Nat) :=
  st.filter (fun e => decide (now - e.2 ≤ DUPLICATE_REQUEST_WINDOW))

/-- Wrap an integer to JS 32-bit two's-complement range (the `| 0` /
`& hash` coercion). -/
def toInt32 (x : Int) : Int := (x + 2 ^ 31) % 2 ^ 32 - 2 ^ 31

/-- One step of the dedup hash loop (route.ts lines 32-36):
`hash = ((hash << 5) - hash) + char; hash = hash & hash`. -/
def hashStep (hash : Int) (c : Nat) : Int :=
  toInt32 (toInt32 (hash * 32) - hash + c)

/-- `createRequestHash` (route.ts lines 28-38): hash of
`requestId + ":" + prompt`, rendered in decimal. -/
def createRequestHash (requestId prompt : String) : String :=
  toString ((requestId ++ ":" ++ prompt).data.foldl (fun h c => hashStep h c.toNat) 0)

/-- Result of `validateRequest`. -/
inductive Validation where
  | valid
  | invalid (error : String)
deriving Repr, DecidableEq

/-- The deny-list test of `validateRequest` (route.ts lines 51-68): the
seven case-insensitive suspicious patterns. -/
def suspiciousHit (p : String) : Bool :=
  containsCI p "<script" || containsCI p "javascript:" || containsCI p "onerror=" ||
  containsCI p "onload=" || containsCI p "eval(" || containsCI p "document.cookie" ||
  containsCI p "$\x7b"

/-- `validateRequest` (route.ts lines 41-71).  The prompt read from the
JSON body may be absent (`undefined`), which is falsy like `""`. -/
def validateRequest (prompt : Option String) : Validation :=
  match prompt with
  | none => .invalid "Missing prompt"
  | some p =>
    if p = "" then .invalid "Missing prompt"
    else if p.length > MAX_PROMPT_LENGTH then
      .invalid "Prompt exceeds maximum allowed length"
    else if suspiciousHit p then
      .invalid "Prompt contains potentially malicious content"
    else .valid

/-- Quote characters stripped by `sanitizePrompt`'s second replace
(route.ts line 318): apostrophe, double quote, semicolon, backtick. -/
def isQuoteChar (c : Char) : Bool :=
  c = Char.ofNat 39 || c = Char.ofNat 34 || c = ';' || c = Char.ofNat 96

/-- Leading/trailing-whitespace trim on character lists (`.trim()`). -/
def trimL (l : List Char) : List Char :=
  ((l.dropWhile Char.isWhitespace).reverse.dropWhile Char.isWhitespace).reverse

/-- Case-insensitive literal prefix test on character lists (`pat` is
given lowercase). -/
def startsWithLower (pat l : List Char) : Bool :=
  decide (pat <+: l.map Char.toLower)

/-- One left-to-right pass of
`replace(/<[^>]*>|javascript:|onerror=|onload=/gi, '')`
(route.ts line 315).  At each position the regex alternatives are tried:
a `<...>` tag (up to the nearest following `>`), then the three literal
patterns, case-insensitively; a match is deleted and scanning resumes
after it.  `fuel` bounds recursion and is instantiated with the list
length, which every step strictly decreases. -/
def removePassAux : Nat → List Char → List Char
  | 0, l => l
  | _ + 1, [] => []
  | fuel + 1, c :: rest =>
    if c = '<' && rest.any (fun x => x = '>') then
      removePassAux fuel ((rest.dropWhile (fun x => x ≠ '>')).drop 1)
    else if startsWithLower "javascript:".data (c :: rest) then
      removePassAux fuel ((c :: rest).drop 11)
    else if startsWithLower "onerror=".data (c :: rest) then
      removePassAux fuel ((c :: rest).drop 8)
    else if startsWithLower "onload=".data (c :: rest) then
      removePassAux fuel ((c :: rest).drop 7)
    else c :: removePassAux fuel rest

/-- The full tag/handler removal pass of `sanitizePrompt`. -/
def removePass (l : List Char) : List Char := removePassAux l.length l

/-- `sanitizePrompt` (route.ts lines 311-322): single removal pass for
tags and handler substrings, strip quote characters, trim, truncate to
`MAX_PROMPT_LENGTH`. -/
def sanitizePrompt (prompt : String) : String :=
  if prompt = "" then ""
  else ⟨(trimL ((removePass prompt.data).filter (fun c => !isQuoteChar c))).take
          MAX_PROMPT_LENGTH⟩

/-! ## `src/app/api/generate/route.ts`: the POST handler -/

/-- The parsed JSON request body (`{ prompt, cacheBuster }`,
route.ts line 120); only `prompt` is ever used. -/
structure JsonBody where
  prompt : Option String
deriving Repr, DecidableEq

/-- An inbound request as seen by the handler: `origin` header (absent or
empty is falsy), the resolved `x-request-id` (header value or generated
UUID, route.ts line 107), and the body (`none` when `request.json()`
throws). -/
structure ServerRequest where
  origin : Option String
  requestId : String
  body : Option JsonBody
deriving Repr, DecidableEq

/-- Server environment: `NEXT_PUBLIC_SITE_URL` and
`RETRODIFFUSION_API_KEY`. -/
structure ServerEnv where
  siteUrl : Option String
  apiKey : Option String
deriving Repr, DecidableEq

/-- `allowedOrigins` (route.ts lines 82-87). -/
def routeAllowedOrigins (env : ServerEnv) : List String :=
  ["https://your-domain.com", "https://www.your-domain.com",
   env.siteUrl.getD "", "http://localhost:3000"]

/-- The origin gate (route.ts lines 89-91): absent/empty origin passes,
else the origin must match an allowed entry (or an entry is `*`). -/
def originAllowed (env : ServerEnv) (origin : Option String) : Bool :=
  match origin with
  | none => true
  | some o =>
    o = "" || (routeAllowedOrigins env).any (fun a => o = a || a = "*")

/-- The duplicate-request test (route.ts lines 125-137): an entry for the
hash exists, its timestamp is truthy (non-zero), and it is younger than
the dedup window. -/
def dedupHit (st : List (String × Nat)) (h : String) (now : Nat) : Bool :=
  match alookup st h with
  | some ts => ts ≠ 0 && now - ts < DUPLICATE_REQUEST_WINDOW
  | none => false

/-- Parsed body of a 2xx upstream reply: `base64_images` may be missing
(`none`) and `remaining_credits` may be absent. -/
structure UpstreamBody where
  base64Images : Option (List String)
  remainingCredits : Option Int
deriving Repr, DecidableEq

/-- Outcome of the outbound `fetch` to the generation API: the fetch may
reject, or reply with `ok`/`status` and a body (`none` when
`response.json()` throws or yields `null`). -/
inductive UpstreamOutcome where
  | threw
  | reply (ok : Bool) (status : Nat) (body : Option UpstreamBody)
deriving Repr, DecidableEq

/-- An HTTP response produced by the handler, with the JSON payload
fields it sets and the headers explicitly set on it. -/
structure ApiResponse where
  status : Nat
  success : Bool
  message : Option String := none
  imageUrl : Option String := none
  promptEcho : Option String := none
  remainingCredits : Option Int := none
  headers : List (String × String) := []
deriving Repr, DecidableEq

/-- The security headers set on the handler's success response
(route.ts lines 287-292). -/
def routeSecurityHeaders : List (String × String) :=
  [("Content-Security-Policy",
    "default-src \x27self\x27; img-src \x27self\x27 data:; script-src \x27self\x27"),
   ("X-Content-Type-Options", "nosniff"),
   ("X-Frame-Options", "DENY"),
   ("X-XSS-Protection", "1; mode=block"),
   ("Referrer-Policy", "strict-origin-when-cross-origin"),
   ("Permissions-Policy", "camera=(), microphone=(), geolocation=()")]

/-- Output of one handler invocation: the response, the dedup-tracking
state after the call, and whether the external API was called. -/
structure PostOutput where
  response : ApiResponse
  state : List (String × Nat)
  upstreamCalled : Bool
deriving Repr, DecidableEq

/-- Message of the 429 duplicate-request rejection (route.ts line 132). -/
def duplicateMsg : String := "Duplicate request detected. Please wait before retrying."

/-- Message of the 500 invalid-upstream-response rejection
(route.ts lines 263, 272). -/
def invalidResponseMsg : String := "Invalid response from the API"

/-- `POST` (route.ts lines 73-304).  `now` is `Date.now()` for this
request, `runCleanup` models the 1%-probability cleanup draw
(route.ts line 76), and `upstream` is the network oracle. -/
def POSThandler (env : ServerEnv) (st0 : List (String × Nat)) (now : Nat)
    (req : ServerRequest) (runCleanup : Bool) (upstream : UpstreamOutcome) :
    PostOutput :=
  let st := if runCleanup then cleanupProcessedRequests st0 now else st0
  if !originAllowed env req.origin then
    ⟨{status := 403, success := false, message := some "Unauthorized"}, st, false⟩
  else
    match req.body with
    | none =>
      ⟨{status := 400, success := false, message := some "Invalid request format"},
       st, false⟩
    | some body =>
      let requestHash := createRequestHash req.requestId (body.prompt.getD "undefined")
      if dedupHit st requestHash now then
        ⟨{status := 429, success := false, message := some duplicateMsg}, st, false⟩
      else
        let st1 := aupsert st requestHash now
        match validateRequest body.prompt with
        | .invalid e =>
          ⟨{status := 400, success := false, message := some e}, st1, false⟩
        | .valid =>
          match env.apiKey with
          | none =>
            ⟨{status := 500, success := false,
              message := some "API key not configured on server. Please contact support."},
             st1, false⟩
          | some _ =>
            let sanitized := sanitizePrompt (body.prompt.getD "")
            match upstream with
            | .threw =>
              ⟨{status := 500, success := false,
                message := some "An error occurred while processing your request"},
               st1, true⟩
            | .reply ok status ubody =>
              if !ok then
                if status = 429 then
                  ⟨{status := 429, success := false,
                    message := some "Credit limit reached. Try again later or upgrade your plan."},
                   st1, true⟩
                else if status = 403 then
                  ⟨{status := 403, success := false,
                    message := some "Authentication failed. Please verify your API key is valid and active."},
                   st1, true⟩
                else if status = 401 then
                  ⟨{status := 401, success := false,
                    message := some "Invalid API key. Please check your configuration."},
                   st1, true⟩
                else
                  ⟨{status := status, success := false,
                    message := some ("API error: " ++ toString status)}, st1, true⟩
              else
                match ubody with
                | none =>
                  ⟨{status := 500, success := false, message := some invalidResponseMsg},
                   st1, true⟩
                | some b =>
                  match b.base64Images with
                  | none =>
                    ⟨{status := 500, success := false, message := some invalidResponseMsg},
                     st1, true⟩
                  | some imgs =>
                    match imgs with
                    | [] =>
                      ⟨{status := 500, success := false, message := some invalidResponseMsg},
                       st1, true⟩
                    | s :: _ =>
                      if s = "" then
                        ⟨{status := 500, success := false, message := some invalidResponseMsg},
                         st1, true⟩
                      else
                        ⟨{status := 200, success := true,
                          imageUrl := some ("data:image/png;base64," ++ s),
                          promptEcho := some sanitized,
                          remainingCredits := b.remainingCredits,
                          headers := routeSecurityHeaders}, st1, true⟩

/-! ## `src/lib/retrodiffusion.ts`: the client request guard -/

/-- `GenerationResult` (retrodiffusion.ts lines 44-51). -/
structure GenerationResult where
  imageUrl : String
  message : Option String := none
  success : Bool
  prompt : Option String := none
  pixelArtAscii : Option String := none
  remainingCredits : Option Int := none
deriving Repr, DecidableEq

/-- A `requestCache` entry (retrodiffusion.ts line 54). -/
structure CacheEntry where
  result : GenerationResult
  timestamp : Nat
deriving Repr, DecidableEq

/-- The module-level mutable guard state of retrodiffusion.ts:
`requestCache`, `lastRequestTime`, the `sessionStorage` mirror
`last_api_request_time` (0 when absent), `pendingRequests`, and
`apiRequestsThisSession`. -/
structure ClientState where
  requestCache : List (String × CacheEntry)
  lastRequestTime : Nat
  sessionLastRequestTime : Nat
  pendingRequests : List String
  apiRequestsThisSession : Nat
deriving Repr, DecidableEq

/-- `MIN_REQUEST_INTERVAL` (retrodiffusion.ts line 58): 3 seconds. -/
def MIN_REQUEST_INTERVAL : Nat := 3000

/-- `MAX_REQUESTS_PER_SESSION` (retrodiffusion.ts line 65). -/
def MAX_REQUESTS_PER_SESSION : Nat := 50

/-- Cache TTL (retrodiffusion.ts line 159): 30 minutes in ms. -/
def CACHE_TTL : Nat := 1000 * 60 * 30

/-- The hardcoded fallback data-URL used by the automatic-call block and
the outer catch (retrodiffusion.ts lines 125, 347); it coincides with the
unknown-error placeholder of `getPlaceholderImageForError`. -/
def placeholderOtherB64 : String :=
  "data:image/png;base64,iVBORw0KGgoAAAANSUhEUgAAAQAAAAEAAQMAAABmvDolAAAAA1BMVEUfAAANkyPdAAAATklEQVR42u3BAQ0AAADCIPunNsIVYAAAAAAAAAAAAAAAAAAAAAAAAAAAAAAAAAAAAAAAAAAAAAAAAAAAAAAAAAAAAAAAAAAAAAAAAODfAEQSAAFrfHJ/AAAAAElFTkSuQmCC"

/-- Rate-limit and credit-limit placeholder (retrodiffusion.ts line 407). -/
def placeholderRateLimitB64 : String :=
  "data:image/png;base64,iVBORw0KGgoAAAANSUhEUgAAAQAAAAEAAQMAAABmvDolAAAAA1BMVEX/AAAZ4gk3AAAAXklEQVR42u3BMQEAAADCIPunNsU+YAAAAAAAAAAAAAAAAAAAAAAAAAAAAAAAAAAAAAAAAAAAAAAAAAAAAAAAAAAAAAAAAAAAAAAAAAAAAAAAAAAAAAAAAAAA+A0mCAABQ2/jwwAAAABJRU5ErkJggg=="

/-- Authentication-error placeholder (retrodiffusion.ts line 410). -/
def placeholderAuthB64 : String :=
  "data:image/png;base64,iVBORw0KGgoAAAANSUhEUgAAAQAAAAEAAQMAAABmvDolAAAAA1BMVEUAAACnej3aAAAAAXRSTlMAQObYZgAAADJJREFUaN7twTEBAAAAwiD7p14MH2AAAAAAAAAAAAAAAAAAAAAAAAAAAAAAAAAAAAAA4N8AKvgAAUFrhu4AAAAASUVORK5CYII="

/-- Validation-error placeholder (retrodiffusion.ts line 413). -/
def placeholderValidationB64 : String :=
  "data:image/png;base64,iVBORw0KGgoAAAANSUhEUgAAAQAAAAEAAQMAAABmvDolAAAAA1BMVEUfAwAyLTE9AAAAXklEQVR42u3BMQEAAADCIPunNsU+YAAAAAAAAAAAAAAAAAAAAAAAAAAAAAAAAAAAAAAAAAAAAAAAAAAAAAAAAAAAAAAAAAAAAAAAAAAAAAAAAAAAAAAAAAAA+A0mCAABQ2/jwwAAAABJRU5ErkJggg=="

/-- `getPlaceholderImageForError` (retrodiffusion.ts lines 404-418). -/
def getPlaceholderImageForError (statusCode : Nat) : String :=
  if statusCode = 429 then placeholderRateLimitB64
  else if statusCode = 401 || statusCode = 403 then placeholderAuthB64
  else if statusCode = 422 then placeholderValidationB64
  else placeholderOtherB64

/-- The four ASCII-art patterns of `generatePlaceholderAsciiArt`
(retrodiffusion.ts lines 430-474), as newline-joined strings. -/
def asciiPatterns : List String :=
  ["\n■■■■■■■■■■■■■■■■\n■                ■\n■  ♥♥      ♥♥   ■\n■  ♥♥      ♥♥   ■\n■                ■\n■       ♥♥       ■\n■      ♥♥♥♥      ■\n■       ♥♥       ■\n■                ■\n■■■■■■■■■■■■■■■■\n    ",
   "\n□□□□□□□□□□□□□□□□\n□  ▓▓▓▓▓▓▓▓▓▓  □\n□  ▓        ▓  □\n□  ▓  ◘  ◘  ▓  □\n□  ▓        ▓  □\n□  ▓   ⌣    ▓  □\n□  ▓        ▓  □\n□  ▓▓▓▓▓▓▓▓▓▓  □\n□□□□□□□□□□□□□□□□\n    ",
   "\n╔════════════╗\n║ ▄▄▄    ▄▄▄ ║\n║ █▀█    █▀█ ║\n║            ║\n║    ╭──╮    ║\n║    ╰──╯    ║\n║            ║\n╚════════════╝\n    ",
   "\n┌──────────────┐\n│   ╭─╮  ╭─╮   │\n│   ╰─╯  ╰─╯   │\n│              │\n│      /\\     │\n│     /  \\    │\n│    /____\\   │\n└──────────────┘\n    "]

/-- `generatePlaceholderAsciiArt` (retrodiffusion.ts lines 425-480):
pattern selected by prompt length modulo the pattern count. -/
def generatePlaceholderAsciiArt (prompt : String) : String :=
  if prompt = "" then ""
  else ((asciiPatterns.get? (prompt.length % asciiPatterns.length)).getD "")

/-- `requestCache` lookup with TTL (retrodiffusion.ts lines 158-162). -/
def cacheLookup (cache : List (String × CacheEntry)) (np : String) (now : Nat) :
    Option GenerationResult :=
  match alookup cache np with
  | some e => if now - e.timestamp < CACHE_TTL then some e.result else none
  | none => none

/-- The cooldown wait computation (retrodiffusion.ts line 194):
`Math.ceil((MIN_REQUEST_INTERVAL - (now - effectiveLast)) / 1000)`. -/
def waitSeconds (effLast now : Nat) : Nat :=
  (MIN_REQUEST_INTERVAL - (now - effLast) + 999) / 1000

/-- Eviction of the oldest cache entry (retrodiffusion.ts lines 322-328):
reduce over the keys keeping the first key of minimal timestamp, then
delete it. -/
def evictOldest (cache : List (String × CacheEntry)) : List (String × CacheEntry) :=
  match cache with
  | [] => []
  | e0 :: _ =>
    let oldest := cache.foldl (fun acc e => if e.2.timestamp < acc.2.timestamp then e else acc) e0
    cache.filter (fun e => !(e.1 = oldest.1))

/-- The `/api/generate` response text checks used when JSON parsing fails
(retrodiffusion.ts line 261). -/
def textHasCreditLimit (t : String) : Bool :=
  containsSub t "credit limit" || containsSub t "exceeded" || containsSub t "rate limit"

/-- Auth-failure text patterns (retrodiffusion.ts line 270). -/
def textHasAuthIssue (t : String) : Bool :=
  containsSub t "unauthorized" || containsSub t "authentication" || containsSub t "forbidden"

/-- Validation-failure text patterns (retrodiffusion.ts line 280). -/
def textHasValidationIssue (t : String) : Bool :=
  containsSub t "validation" || containsSub t "invalid" || containsSub t "unprocessable"

/-- Body of the `/api/generate` response as the client sees it: parsed
JSON (shaped like a `GenerationResult` without ASCII art) or raw
unparsable text. -/
inductive RespText where
  | parsed (r : GenerationResult)
  | unparsable (text : String)
deriving Repr, DecidableEq

/-- Outcome of the client's `fetch('/api/generate')`: the fetch may
reject (with an error message), `response.text()` may throw, or a body is
obtained together with `ok`/`status`. -/
inductive FetchOutcome where
  | fetchThrew (msg : String)
  | textThrew (ok : Bool) (status : Nat)
  | got (ok : Bool) (status : Nat) (body : RespText)
deriving Repr, DecidableEq

/-- Output of one `generatePixelArt` call: the returned result, the guard
state after the call, and whether the network call was issued. -/
structure ClientOutput where
  result : GenerationResult
  state : ClientState
  networkCalled : Bool
deriving Repr, DecidableEq

/-- Empty-prompt message (retrodiffusion.ts line 139). -/
def emptyPromptMsg : String := "Please provide a prompt to generate an image"

/-- Session-quota message (retrodiffusion.ts line 149). -/
def quotaMsg : String :=
  "You have reached the maximum number of generations for this session. Please try again later."

/-- Already-pending message (retrodiffusion.ts line 169). -/
def pendingMsg : String :=
  "A generation with this prompt is already in progress. Please wait a moment."

/-- Cooldown message (retrodiffusion.ts line 198). -/
def waitMsg (w : Nat) : String :=
  "Please wait " ++ toString w ++ " seconds before generating another image."

/-- Automatic-call block message (retrodiffusion.ts line 126). -/
def autoBlockMsg : String :=
  "API call blocked: This appears to be an automatic call not triggered by user action. Please use the terminal to generate images."

/-- Credit-limit message for unparsable responses (retrodiffusion.ts line 264). -/
def creditLimitMsg : String := "You have reached the API credit limit. Please try again later."

/-- Auth-failure message for unparsable responses (retrodiffusion.ts line 273). -/
def authFailMsg : String := "API authorization failed. Please check your API key configuration."

/-- Validation-error message for unparsable responses (retrodiffusion.ts line 283). -/
def validationErrMsg : String :=
  "API validation error: Your prompt might be too complex or contain invalid characters."

/-- Generic message of the outer catch when reading/parsing the response
failed (retrodiffusion.ts lines 289-294, 342-353): the rethrown error is
`Error('Failed to read API response')`. -/
def readFailMsg : String := "Error: Failed to read API response"

/-- `generatePixelArt` (retrodiffusion.ts lines 115-355).

`auto` models the `isAutomaticCall()` gate (lines 122-130); `now` is
`Date.now()` at entry, `nowAfter` is `Date.now()` when the response is
processed (used by `trackApiRequest` and the cache timestamp); `oracle`
is the network.  Returns the result, the new guard state, and whether
the `/api/generate` fetch was issued. -/
def generatePixelArt (auto : Bool) (st : ClientState) (now nowAfter : Nat)
    (prompt : String) (oracle : FetchOutcome) : ClientOutput :=
  if auto then
    ⟨{imageUrl := placeholderOtherB64, message := some autoBlockMsg,
      success := false, prompt := some prompt}, st, false⟩
  else if jsTrim prompt = "" then
    ⟨{imageUrl := "", message := some emptyPromptMsg, success := false}, st, false⟩
  else if st.apiRequestsThisSession ≥ MAX_REQUESTS_PER_SESSION then
    ⟨{imageUrl := getPlaceholderImageForError 429, message := some quotaMsg,
      success := false}, st, false⟩
  else
    let np := jsToLower (jsTrim prompt)
    match cacheLookup st.requestCache np now with
    | some r => ⟨r, st, false⟩
    | none =>
      if st.pendingRequests.contains np then
        ⟨{imageUrl := "", message := some pendingMsg, success := false}, st, false⟩
      else
        let effLast := max st.lastRequestTime st.sessionLastRequestTime
        if now - effLast < MIN_REQUEST_INTERVAL then
          ⟨{imageUrl := "", message := some (waitMsg (waitSeconds effLast now)),
            success := false}, st, false⟩
        else
          let st1 := {st with pendingRequests := np :: st.pendingRequests,
                              lastRequestTime := now,
                              sessionLastRequestTime := now}
          match oracle with
          | .fetchThrew msg =>
            ⟨{imageUrl := placeholderOtherB64, message := some ("Error: " ++ msg),
              success := false, prompt := some prompt},
             {st1 with pendingRequests := st1.pendingRequests.erase np}, true⟩
          | .textThrew _ _ =>
            let st2 := {st1 with apiRequestsThisSession := st1.apiRequestsThisSession + 1,
                                 sessionLastRequestTime := nowAfter}
            ⟨{imageUrl := placeholderOtherB64, message := some readFailMsg,
              success := false, prompt := some prompt},
             {st2 with pendingRequests := st2.pendingRequests.erase np}, true⟩
          | .got ok status body =>
            let st2 := {st1 with apiRequestsThisSession := st1.apiRequestsThisSession + 1,
                                 sessionLastRequestTime := nowAfter}
            match body with
            | .unparsable text =>
              if textHasCreditLimit text then
                ⟨{imageUrl := getPlaceholderImageForError 429,
                  message := some creditLimitMsg, success := false,
                  prompt := some prompt}, st2, true⟩
              else if textHasAuthIssue text then
                ⟨{imageUrl := getPlaceholderImageForError 403,
                  message := some authFailMsg, success := false,
                  prompt := some prompt}, st2, true⟩
              else if textHasValidationIssue text then
                ⟨{imageUrl := getPlaceholderImageForError 422,
                  message := some validationErrMsg, success := false,
                  prompt := some prompt}, st2, true⟩
              else
                ⟨{imageUrl := placeholderOtherB64, message := some readFailMsg,
                  success := false, prompt := some prompt},
                 {st2 with pendingRequests := st2.pendingRequests.erase np}, true⟩
            | .parsed r =>
              if !ok then
                ⟨{imageUrl := getPlaceholderImageForError status,
                  message := some (match r.message with
                    | some m =>
                      if m = "" then "Error: HTTP status " ++ toString status else m
                    | none => "Error: HTTP status " ++ toString status),
                  success := false, prompt := some prompt},
                 {st2 with pendingRequests := st2.pendingRequests.erase np}, true⟩
              else
                let finalResult :=
                  {r with pixelArtAscii := some (generatePlaceholderAsciiArt prompt)}
                if r.success && r.imageUrl ≠ "" then
                  let cache1 := aupsert st2.requestCache np ⟨finalResult, nowAfter⟩
                  let cache2 := if cache1.length > 20 then evictOldest cache1 else cache1
                  ⟨finalResult,
                   {st2 with requestCache := cache2,
                             pendingRequests := st2.pendingRequests.erase np}, true⟩
                else
                  ⟨finalResult,
                   {st2 with pendingRequests := st2.pendingRequests.erase np}, true⟩

/-! ## `src/middleware.ts`: rate limiting and security headers -/

/-- `RateLimitData` (middleware.ts lines 7-12). -/
structure RateLimitData where
  count : Nat
  timestamp : Nat
  blocked : Bool
  consecutiveFailures : Nat
deriving Repr, DecidableEq

/-- `SENSITIVE_PATHS` (middleware.ts lines 23-27). -/
def SENSITIVE_PATHS : List String := ["/api/generate", "/api/auth", "/api/admin"]

/-- `ALLOWED_ORIGINS` (middleware.ts lines 30-35). -/
def mwAllowedOrigins (siteUrl : Option String) : List String :=
  ["https://your-domain.com", "https://www.your-domain.com",
   siteUrl.getD "", "http://localhost:3000"]

/-- The security headers applied to the middleware response
(middleware.ts lines 102-124); the CSP embeds the per-request nonce. -/
def middlewareSecurityHeaders (nonce : String) : List (String × String) :=
  [("Content-Security-Policy",
    "default-src \x27self\x27; script-src \x27self\x27 \x27nonce-" ++ nonce ++
      "\x27 \x27strict-dynamic\x27; style-src \x27self\x27 \x27unsafe-inline\x27; img-src \x27self\x27 data: blob: https:; font-src \x27self\x27 data:; connect-src \x27self\x27 https://*.supabase.co https://api.retrodiffusion.ai; frame-ancestors \x27none\x27; form-action \x27self\x27; base-uri \x27self\x27"),
   ("X-Content-Type-Options", "nosniff"),
   ("X-Frame-Options", "DENY"),
   ("X-XSS-Protection", "1; mode=block"),
   ("Referrer-Policy", "strict-origin-when-cross-origin"),
   ("Permissions-Policy", "camera=(), microphone=(), geolocation=(), interest-cohort=()"),
   ("Strict-Transport-Security", "max-age=31536000; includeSubDomains"),
   ("X-DNS-Prefetch-Control", "off")]

/-- Outcome of one `middleware` invocation: `limited` is the bare
429 `'Too Many Requests'` return (middleware.ts line 90), `blockedOrigin`
the 403 unauthorized-origin return (lines 140-152), `headers` the headers
carried by whichever response was returned, and `state` the rate-limit
map afterwards. -/
structure MwOutput where
  limited : Bool
  blockedOrigin : Bool
  headers : List (String × String)
  state : List (String × RateLimitData)
deriving Repr, DecidableEq

/-- `middleware` (middleware.ts lines 56-165), restricted to its
rate-limiting, header and origin logic.  `nonce` models the generated
CSP nonce. -/
def middlewareModel (st : List (String × RateLimitData)) (ip : String) (now : Nat)
    (path : String) (origin : Option String) (nonce : String)
    (siteUrl : Option String) : MwOutput :=
  let rd0 := (alookup st ip).getD
    {count := 0, timestamp := now, blocked := false, consecutiveFailures := 0}
  let rd1 := if rd0.timestamp < now then
    {rd0 with count := 0, timestamp := now + 60 * 1000} else rd0
  let rd2 := {rd1 with count := rd1.count + 1}
  let st1 := aupsert st ip rd2
  if rd2.count > 100 then
    -- `new NextResponse('Too Many Requests', { status: 429 })`: no headers.
    {limited := true, blockedOrigin := false, headers := [], state := st1}
  else
    let rlHeaders : List (String × String) :=
      [("X-RateLimit-Limit", "100"),
       ("X-RateLimit-Remaining", toString (100 - rd2.count)),
       ("X-RateLimit-Reset", toString rd2.timestamp)]
    let hdrs := rlHeaders ++ middlewareSecurityHeaders nonce
    let originBlocked :=
      SENSITIVE_PATHS.any (fun sp => decide (sp.data <+: path.data)) &&
      (match origin with
       | some o =>
         o ≠ "" && !(mwAllowedOrigins siteUrl).any (fun a => o = a || a = "*")
       | none => false)
    if originBlocked then
      {limited := false, blockedOrigin := true,
       headers := ("Content-Type", "application/json") :: hdrs, state := st1}
    else
      {limited := false, blockedOrigin := false, headers := hdrs, state := st1}

/-- `n` successive middleware invocations from the same IP at the same
instant (used to exercise the per-window counter). -/
def mwRepeat (n : Nat) (st : List (String × RateLimitData)) (ip : String)
    (now : Nat) (path : String) (origin : Option String) (nonce : String)
    (siteUrl : Option String) : List (String × RateLimitData) :=
  match n with
  | 0 => st
  | m + 1 =>
    (middlewareModel (mwRepeat m st ip now path origin nonce siteUrl)
      ip now path origin nonce siteUrl).state

/-! ## Supporting lemmas -/

/-- Every character surviving `sanitizePrompt` is a non-quote character:
the quote-stripping replace removes all of them and the later trim and
truncation only drop characters. -/
theorem sanitizePrompt_no_quotes (p : String) :
    ∀ c ∈ (sanitizePrompt p).data, isQuoteChar c = false := by
  intro c hc
  unfold sanitizePrompt at hc
  by_cases hp : p = ""
  · simp [hp] at hc
  · rw [if_neg hp] at hc
    have hc1 : c ∈ trimL ((removePass p.data).filter (fun c => !isQuoteChar c)) :=
      List.take_subset _ _ hc
    unfold trimL at hc1
    rw [List.mem_reverse] at hc1
    have hc2 := (List.dropWhile_sublist _).subset hc1
    rw [List.mem_reverse] at hc2
    have hc3 := (List.dropWhile_sublist (l := (removePass p.data).filter
      (fun c => !isQuoteChar c)) Char.isWhitespace).subset hc2
    have := List.of_mem_filter hc3
    simpa using this

/-- The sanitized prompt never exceeds the maximum prompt length. -/
theorem sanitizePrompt_length_le (p : String) :
    (sanitizePrompt p).data.length ≤ MAX_PROMPT_LENGTH := by
  unfold sanitizePrompt
  by_cases hp : p = ""
  · simp [hp]
  · rw [if_neg hp]
    simp [List.length_take_le]

/-! ## Claim C10 — idempotence of `sanitizePrompt` -/

/-- C10, counterexample: `sanitizePrompt` is not idempotent.  On the
input `java'script:` the quote-stripping replace reassembles the
removable substring `javascript:` (the first-pass pattern scan saw the
apostrophe and found nothing), so a second application removes more. -/
theorem c10_counterexample :
    sanitizePrompt (sanitizePrompt "java\x27script:") ≠
      sanitizePrompt "java\x27script:" ∧
    sanitizePrompt "java\x27script:" = "javascript:" ∧
    sanitizePrompt (sanitizePrompt "java\x27script:") = "" := by
  refine ⟨?_, by decide, by decide⟩
  decide

/-- C10, amended: `sanitizePrompt` is idempotent exactly on the stable
outputs — whenever its output is unchanged by another removal pass and by
trimming, a second application is the identity (quote-freeness and the
length bound always hold of the output).  In general idempotence fails,
since removal can reassemble a removable substring (`c10_counterexample`). -/
theorem c10_amended (p : String)
    (h1 : removePass (sanitizePrompt p).data = (sanitizePrompt p).data)
    (h2 : trimL (sanitizePrompt p).data = (sanitizePrompt p).data) :
    sanitizePrompt (sanitizePrompt p) = sanitizePrompt p := by
  by_cases hq : sanitizePrompt p = ""
  · rw [hq]
    decide
  · conv_lhs => rw [sanitizePrompt, if_neg hq]
    rw [h1, List.filter_eq_self.mpr, h2,
      List.take_of_length_le (sanitizePrompt_length_le p)]
    intro c hc
    simp [sanitizePrompt_no_quotes p c hc]

/-- C10, witness: the amended idempotence theorem applied to the concrete
prompt `hello world`. -/
theorem c10_witness :
    sanitizePrompt (sanitizePrompt "hello world") = sanitizePrompt "hello world" :=
  c10_amended "hello world" (by decide) (by decide)

/-! ## Claim C3 — middleware per-IP rate limiting -/

/-- C3, counterexample: the active ceiling is 100, not ~10, and the 429
response carries no headers at all.  (a) The 11th request from one IP
within a window is still accepted (`limited = false`), so requests beyond
a ceiling of 10 do not receive 429.  (b) When the limit does trip, the
bare 429 response has an empty header list — in particular no
`Retry-After`. -/
theorem c3_counterexample :
    (middlewareModel (mwRepeat 10 [] "1.2.3.4" 5 "/" none "n" none)
        "1.2.3.4" 5 "/" none "n" none).limited = false ∧
    (middlewareModel
        [("9.9.9.9", {count := 150, timestamp := 999999, blocked := false,
                      consecutiveFailures := 0})]
        "9.9.9.9" 5 "/" none "n" none).limited = true ∧
    (middlewareModel
        [("9.9.9.9", {count := 150, timestamp := 999999, blocked := false,
                      consecutiveFailures := 0})]
        "9.9.9.9" 5 "/" none "n" none).headers = [] := by
  refine ⟨by decide, by decide, by decide⟩

/-- C3, amended: for a single client IP the per-window ceiling is 100
(the declared `MAX_REQUESTS_PER_WINDOW = 10` is unused); every request
beyond it within the window receives a bare 429 carrying no
`Retry-After` header, and once the window elapses the per-IP counter
resets so the next request is accepted again (with count 1 and a fresh
window end). -/
theorem c3_amended (st : List (String × RateLimitData)) (ip : String)
    (now : Nat) (path : String) (origin : Option String) (nonce : String)
    (siteUrl : Option String) (d : RateLimitData)
    (h : alookup st ip = some d) :
    (¬ d.timestamp < now → 100 ≤ d.count →
      (middlewareModel st ip now path origin nonce siteUrl).limited = true ∧
      (middlewareModel st ip now path origin nonce siteUrl).headers = []) ∧
    (d.timestamp < now →
      (middlewareModel st ip now path origin nonce siteUrl).limited = false ∧
      alookup (middlewareModel st ip now path origin nonce siteUrl).state ip =
        some {count := 1, timestamp := now + 60 * 1000, blocked := d.blocked,
              consecutiveFailures := d.consecutiveFailures}) := by
  constructor
  · intro hts hcount
    have hgt : d.count + 1 > 100 := by omega
    simp [middlewareModel, h, hts, hgt]
  · intro hts
    have hle : ¬ (0 + 1 > 100) := by omega
    simp only [middlewareModel, h, Option.getD_some, if_pos hts]
    simp only [hle, if_false]
    refine ⟨?_, ?_⟩
    · split <;> rfl
    · have := alookup_aupsert st ip
        {d with count := 0 + 1, timestamp := now + 60 * 1000}
      split <;> simpa using this

/-- C3, witness: the amended theorem applied to a concrete map whose
entry for IP `9.9.9.9` has an expired window: the next request is
accepted and the counter restarts at 1. -/
theorem c3_witness :
    (middlewareModel
        [("9.9.9.9", {count := 150, timestamp := 40, blocked := false,
                      consecutiveFailures := 0})]
        "9.9.9.9" 50000 "/" none "n" none).limited = false ∧
    alookup (middlewareModel
        [("9.9.9.9", {count := 150, timestamp := 40, blocked := false,
                      consecutiveFailures := 0})]
        "9.9.9.9" 50000 "/" none "n" none).state "9.9.9.9" =
      some {count := 1, timestamp := 50000 + 60 * 1000, blocked := false,
            consecutiveFailures := 0} :=
  (c3_amended
    [("9.9.9.9", {count := 150, timestamp := 40, blocked := false,
                  consecutiveFailures := 0})]
    "9.9.9.9" 50000 "/" none "n" none
    {count := 150, timestamp := 40, blocked := false, consecutiveFailures := 0}
    (by decide)).2 (by decide)

/-! ## Support lemmas for the POST handler -/

/-- The periodic cleanup never drops a dedup entry that is still within
the duplicate-request window. -/
theorem alookup_cleanup (l : List (String × Nat)) (k : String) (v now : Nat)
    (h : alookup l k = some v) (hfresh : now - v ≤ DUPLICATE_REQUEST_WINDOW) :
    alookup (cleanupProcessedRequests l now) k = some v := by
  induction l with
  | nil => simp [alookup] at h
  | cons e rest ih =>
    by_cases he : e.1 = k
    · rw [alookup, if_pos he] at h
      obtain rfl : e.2 = v := by simpa using h
      rw [cleanupProcessedRequests, List.filter_cons, if_pos (by simpa using hfresh)]
      rw [alookup, if_pos he]
    · rw [alookup, if_neg he] at h
      rw [cleanupProcessedRequests, List.filter_cons]
      split
      · rw [alookup, if_neg he]
        exact ih h
      · exact ih h

/-- Any handler invocation that reaches the external API has recorded its
own dedup hash with the current timestamp, and leaves the tracking state
at exactly that update of the (possibly cleaned) incoming state. -/
theorem POSThandler_called_state (env : ServerEnv) (st0 : List (String × Nat))
    (now : Nat) (req : ServerRequest) (runCleanup : Bool)
    (upstream : UpstreamOutcome) (body : JsonBody)
    (hb : req.body = some body)
    (hc : (POSThandler env st0 now req runCleanup upstream).upstreamCalled = true) :
    (POSThandler env st0 now req runCleanup upstream).state =
      aupsert (if runCleanup then cleanupProcessedRequests st0 now else st0)
        (createRequestHash req.requestId (body.prompt.getD "undefined")) now := by
  simp only [POSThandler, hb] at hc ⊢
  by_cases h1 : originAllowed env req.origin
  · simp only [h1, Bool.not_true, Bool.false_eq_true, if_false] at hc ⊢
    by_cases h2 : dedupHit (if runCleanup then cleanupProcessedRequests st0 now else st0)
        (createRequestHash req.requestId (body.prompt.getD "undefined")) now
    · simp [h2] at hc
    · simp only [h2, Bool.false_eq_true, if_false] at hc ⊢
      cases hv : validateRequest body.prompt with
      | invalid e => simp [hv] at hc
      | valid =>
        simp only [hv] at hc ⊢
        cases hk : env.apiKey with
        | none => simp [hk] at hc
        | some key =>
          simp only [hk] at hc ⊢
          cases upstream with
          | threw => rfl
          | reply ok status ubody =>
            repeat' split
            all_goals rfl
  · simp [h1] at hc

/-! ## Claim C4 — server-side duplicate suppression -/

/-- C4: two POST requests with the same request-id and the same prompt
within the 10-second dedup window make exactly one upstream call: given
that the first request reached the external API, the second is answered
with 429 and the duplicate-request message, and does not reach the
external API.  (`t0 ≠ 0` reflects the truthiness test on the stored
timestamp, route.ts line 127.) -/
theorem c4_dedup (env : ServerEnv) (st0 : List (String × Nat)) (t0 t1 : Nat)
    (req1 req2 : ServerRequest) (clean1 clean2 : Bool)
    (up1 up2 : UpstreamOutcome) (body : JsonBody)
    (hb : req1.body = some body)
    (hid : req2.requestId = req1.requestId)
    (hbody : req2.body = req1.body)
    (horig : originAllowed env req2.origin = true)
    (hcalled : (POSThandler env st0 t0 req1 clean1 up1).upstreamCalled = true)
    (ht0 : t0 ≠ 0)
    (hwin : t1 - t0 < DUPLICATE_REQUEST_WINDOW) :
    (POSThandler env (POSThandler env st0 t0 req1 clean1 up1).state t1 req2
        clean2 up2).response.status = 429 ∧
    (POSThandler env (POSThandler env st0 t0 req1 clean1 up1).state t1 req2
        clean2 up2).response.message = some duplicateMsg ∧
    (POSThandler env (POSThandler env st0 t0 req1 clean1 up1).state t1 req2
        clean2 up2).upstreamCalled = false := by
  have hhash : alookup (POSThandler env st0 t0 req1 clean1 up1).state
      (createRequestHash req1.requestId (body.prompt.getD "undefined")) = some t0 := by
    rw [POSThandler_called_state env st0 t0 req1 clean1 up1 body hb hcalled]
    exact alookup_aupsert _ _ _
  generalize hG : (POSThandler env st0 t0 req1 clean1 up1).state = st1 at hhash ⊢
  have hlook2 : alookup
      (if clean2 then cleanupProcessedRequests st1 t1 else st1)
      (createRequestHash req1.requestId (body.prompt.getD "undefined")) = some t0 := by
    cases clean2 with
    | false => simpa using hhash
    | true =>
      simpa using alookup_cleanup _ _ _ _ hhash (le_of_lt hwin)
  have hdup : dedupHit
      (if clean2 then cleanupProcessedRequests st1 t1 else st1)
      (createRequestHash req1.requestId (body.prompt.getD "undefined")) t1 = true := by
    rw [dedupHit, hlook2]
    simp [ht0, hwin]
  simp only [POSThandler, hbody, hb, hid]
  simp [horig, hdup]

/-- C4, witness: a concrete pair of requests with request-id `abc` and
prompt `cat`, 1 second apart; the first call succeeds upstream, the
second is rejected 429 as a duplicate without an upstream call. -/
theorem c4_witness :
    (POSThandler ⟨none, some "rdpk-test"⟩
        (POSThandler ⟨none, some "rdpk-test"⟩ [] 5000 ⟨none, "abc", some ⟨some "cat"⟩⟩
            false (.reply true 200 (some ⟨some ["AAAA"], some 5⟩))).state
        6000 ⟨none, "abc", some ⟨some "cat"⟩⟩ false .threw).response.status = 429 ∧
    (POSThandler ⟨none, some "rdpk-test"⟩
        (POSThandler ⟨none, some "rdpk-test"⟩ [] 5000 ⟨none, "abc", some ⟨some "cat"⟩⟩
            false (.reply true 200 (some ⟨some ["AAAA"], some 5⟩))).state
        6000 ⟨none, "abc", some ⟨some "cat"⟩⟩ false .threw).response.message =
      some duplicateMsg ∧
    (POSThandler ⟨none, some "rdpk-test"⟩
        (POSThandler ⟨none, some "rdpk-test"⟩ [] 5000 ⟨none, "abc", some ⟨some "cat"⟩⟩
            false (.reply true 200 (some ⟨some ["AAAA"], some 5⟩))).state
        6000 ⟨none, "abc", some ⟨some "cat"⟩⟩ false .threw).upstreamCalled = false :=
  c4_dedup ⟨none, some "rdpk-test"⟩ [] 5000 6000
    ⟨none, "abc", some ⟨some "cat"⟩⟩ ⟨none, "abc", some ⟨some "cat"⟩⟩ false false
    (.reply true 200 (some ⟨some ["AAAA"], some 5⟩)) .threw ⟨some "cat"⟩
    rfl rfl rfl (by decide) (by decide) (by decide) (by decide)

/-! ## Claim C5 — upstream response normalization -/

/-- The first usable image of an upstream 2xx body: `some s` when
`base64_images` has a non-empty first element `s`, `none` when the body
is unparseable or the field is missing or empty (the condition
`!data || !data.base64_images || !data.base64_images[0]`,
route.ts line 268). -/
def goodFirstImage : Option UpstreamBody → Option String
  | none => none
  | some b =>
    match b.base64Images with
    | some (s :: _) => if s = "" then none else some s
    | _ => none

/-- C5: for a request that reaches the upstream call and receives a 2xx
reply, (a) a body whose `base64_images` has a non-empty first element `s`
yields `success = true` with `imageUrl = "data:image/png;base64," ++ s`;
(b) a body that is unparseable, or whose `base64_images` is missing,
empty, or starts with an empty string, yields `success = false`, HTTP
500, and the invalid-response message. -/
theorem c5_response_normalization (env : ServerEnv) (st0 : List (String × Nat))
    (now : Nat) (req : ServerRequest) (body : JsonBody) (key : String)
    (ustatus : Nat) (ub : Option UpstreamBody)
    (hb : req.body = some body)
    (horig : originAllowed env req.origin = true)
    (hdedup : dedupHit st0 (createRequestHash req.requestId
      (body.prompt.getD "undefined")) now = false)
    (hv : validateRequest body.prompt = .valid)
    (hk : env.apiKey = some key) :
    (∀ s, goodFirstImage ub = some s →
      (POSThandler env st0 now req false (.reply true ustatus ub)).response.status = 200 ∧
      (POSThandler env st0 now req false (.reply true ustatus ub)).response.success = true ∧
      (POSThandler env st0 now req false (.reply true ustatus ub)).response.imageUrl =
        some ("data:image/png;base64," ++ s)) ∧
    (goodFirstImage ub = none →
      (POSThandler env st0 now req false (.reply true ustatus ub)).response.status = 500 ∧
      (POSThandler env st0 now req false (.reply true ustatus ub)).response.success = false ∧
      (POSThandler env st0 now req false (.reply true ustatus ub)).response.message =
        some invalidResponseMsg) := by
  constructor
  · intro s hs
    rcases ub with _ | b
    · simp [goodFirstImage] at hs
    · rcases hbi : b.base64Images with _ | imgs
      · simp [goodFirstImage, hbi] at hs
      · rcases imgs with _ | ⟨s0, rest⟩
        · simp [goodFirstImage, hbi] at hs
        · by_cases hs0 : s0 = ""
          · simp [goodFirstImage, hbi, hs0] at hs
          · have : s0 = s := by simpa [goodFirstImage, hbi, hs0] using hs
            subst this
            simp [POSThandler, hb, horig, hdedup, hv, hk, hbi, hs0]
  · intro hs
    rcases ub with _ | b
    · simp [POSThandler, hb, horig, hdedup, hv, hk]
    · rcases hbi : b.base64Images with _ | imgs
      · simp [POSThandler, hb, horig, hdedup, hv, hk, hbi]
      · rcases imgs with _ | ⟨s0, rest⟩
        · simp [POSThandler, hb, horig, hdedup, hv, hk, hbi]
        · by_cases hs0 : s0 = ""
          · simp [POSThandler, hb, horig, hdedup, hv, hk, hbi, hs0]
          · simp [goodFirstImage, hbi, hs0] at hs

/-- C5, witness: the main theorem applied to a concrete upstream body
`{"base64_images": ["AAAA"]}` and, separately, to a body with an empty
image list. -/
theorem c5_witness :
    ((POSThandler ⟨none, some "rdpk-test"⟩ [] 5000 ⟨none, "abc", some ⟨some "cat"⟩⟩
        false (.reply true 200 (some ⟨some ["AAAA"], some 5⟩))).response.status = 200 ∧
     (POSThandler ⟨none, some "rdpk-test"⟩ [] 5000 ⟨none, "abc", some ⟨some "cat"⟩⟩
        false (.reply true 200 (some ⟨some ["AAAA"], some 5⟩))).response.success = true ∧
     (POSThandler ⟨none, some "rdpk-test"⟩ [] 5000 ⟨none, "abc", some ⟨some "cat"⟩⟩
        false (.reply true 200 (some ⟨some ["AAAA"], some 5⟩))).response.imageUrl =
       some ("data:image/png;base64," ++ "AAAA")) ∧
    ((POSThandler ⟨none, some "rdpk-test"⟩ [] 5000 ⟨none, "abc", some ⟨some "cat"⟩⟩
        false (.reply true 200 (some ⟨some [], none⟩))).response.status = 500 ∧
     (POSThandler ⟨none, some "rdpk-test"⟩ [] 5000 ⟨none, "abc", some ⟨some "cat"⟩⟩
        false (.reply true 200 (some ⟨some [], none⟩))).response.success = false ∧
     (POSThandler ⟨none, some "rdpk-test"⟩ [] 5000 ⟨none, "abc", some ⟨some "cat"⟩⟩
        false (.reply true 200 (some ⟨some [], none⟩))).response.message =
       some invalidResponseMsg) :=
  ⟨(c5_response_normalization ⟨none, some "rdpk-test"⟩ [] 5000
      ⟨none, "abc", some ⟨some "cat"⟩⟩ ⟨some "cat"⟩ "rdpk-test" 200
      (some ⟨some ["AAAA"], some 5⟩) rfl (by decide) (by decide) (by decide) rfl).1
    "AAAA" rfl,
   (c5_response_normalization ⟨none, some "rdpk-test"⟩ [] 5000
      ⟨none, "abc", some ⟨some "cat"⟩⟩ ⟨some "cat"⟩ "rdpk-test" 200
      (some ⟨some [], none⟩) rfl (by decide) (by decide) (by decide) rfl).2 rfl⟩

/-! ## Claim C6 — inbound prompt validation -/

/-- C6: any request whose prompt is absent (or empty, which JS treats
identically), longer than 1000 characters, or matching the
suspicious-pattern deny-list is answered 400 with one of the three
specific validation reasons, and the external generation API is not
called. -/
theorem c6_validation (env : ServerEnv) (st0 : List (String × Nat)) (now : Nat)
    (req : ServerRequest) (up : UpstreamOutcome) (body : JsonBody)
    (hb : req.body = some body)
    (horig : originAllowed env req.origin = true)
    (hdedup : dedupHit st0 (createRequestHash req.requestId
      (body.prompt.getD "undefined")) now = false)
    (hbad : body.prompt = none ∨ ∃ p, body.prompt = some p ∧
      (p = "" ∨ MAX_PROMPT_LENGTH < p.length ∨ suspiciousHit p = true)) :
    (POSThandler env st0 now req false up).response.status = 400 ∧
    (POSThandler env st0 now req false up).upstreamCalled = false ∧
    ((POSThandler env st0 now req false up).response.message = some "Missing prompt" ∨
     (POSThandler env st0 now req false up).response.message =
       some "Prompt exceeds maximum allowed length" ∨
     (POSThandler env st0 now req false up).response.message =
       some "Prompt contains potentially malicious content") := by
  have hv : ∃ e, validateRequest body.prompt = .invalid e ∧
      (e = "Missing prompt" ∨ e = "Prompt exceeds maximum allowed length" ∨
       e = "Prompt contains potentially malicious content") := by
    rcases hbad with h | ⟨p, hp, hcase⟩
    · exact ⟨_, by simp [h, validateRequest], Or.inl rfl⟩
    · by_cases he : p = ""
      · exact ⟨_, by simp [hp, validateRequest, he], Or.inl rfl⟩
      · by_cases hl : MAX_PROMPT_LENGTH < p.length
        · exact ⟨_, by simp [hp, validateRequest, he, hl], Or.inr (Or.inl rfl)⟩
        · rcases hcase with h1 | h2 | h3
          · exact absurd h1 he
          · exact absurd h2 hl
          · exact ⟨_, by simp [hp, validateRequest, he, hl, h3], Or.inr (Or.inr rfl)⟩
  obtain ⟨e, hv, he⟩ := hv
  refine ⟨?_, ?_, ?_⟩
  · simp [POSThandler, hb, horig, hdedup, hv]
  · simp [POSThandler, hb, horig, hdedup, hv]
  · have hm : (POSThandler env st0 now req false up).response.message = some e := by
      simp [POSThandler, hb, horig, hdedup, hv]
    rcases he with rfl | rfl | rfl
    · exact Or.inl hm
    · exact Or.inr (Or.inl hm)
    · exact Or.inr (Or.inr hm)

/-- C6, witness: a concrete request with the prompt
`<script>alert(1)</script>` is rejected 400 as potentially malicious
content and never reaches the external API. -/
theorem c6_witness :
    (POSThandler ⟨none, some "rdpk-test"⟩ [] 5000
        ⟨none, "abc", some ⟨some "<script>alert(1)</script>"⟩⟩ false
        .threw).response.status = 400 ∧
    (POSThandler ⟨none, some "rdpk-test"⟩ [] 5000
        ⟨none, "abc", some ⟨some "<script>alert(1)</script>"⟩⟩ false
        .threw).upstreamCalled = false ∧
    ((POSThandler ⟨none, some "rdpk-test"⟩ [] 5000
        ⟨none, "abc", some ⟨some "<script>alert(1)</script>"⟩⟩ false
        .threw).response.message = some "Missing prompt" ∨
     (POSThandler ⟨none, some "rdpk-test"⟩ [] 5000
        ⟨none, "abc", some ⟨some "<script>alert(1)</script>"⟩⟩ false
        .threw).response.message = some "Prompt exceeds maximum allowed length" ∨
     (POSThandler ⟨none, some "rdpk-test"⟩ [] 5000
        ⟨none, "abc", some ⟨some "<script>alert(1)</script>"⟩⟩ false
        .threw).response.message = some "Prompt contains potentially malicious content") :=
  c6_validation ⟨none, some "rdpk-test"⟩ [] 5000
    ⟨none, "abc", some ⟨some "<script>alert(1)</script>"⟩⟩ .threw
    ⟨some "<script>alert(1)</script>"⟩ rfl (by decide) (by decide)
    (Or.inr ⟨"<script>alert(1)</script>", rfl, Or.inr (Or.inr (by decide))⟩)

/-! ## Claim C8 — security response headers -/

/-- Header-name membership in a header list. -/
def hasHeader (hs : List (String × String)) (name : String) : Bool :=
  hs.any (fun h => h.1 = name)

/-- C8, counterexample: a failure response produced by the POST handler
itself carries no security headers at all — here a 400 validation
rejection whose header list is empty, so in particular it lacks
`X-Content-Type-Options`. -/
theorem c8_counterexample :
    (POSThandler ⟨none, some "rdpk-test"⟩ [] 7000
        ⟨none, "req7", some ⟨some "eval(document)"⟩⟩ false
        .threw).response.status = 400 ∧
    (POSThandler ⟨none, some "rdpk-test"⟩ [] 7000
        ⟨none, "req7", some ⟨some "eval(document)"⟩⟩ false
        .threw).response.headers = [] ∧
    hasHeader (POSThandler ⟨none, some "rdpk-test"⟩ [] 7000
        ⟨none, "req7", some ⟨some "eval(document)"⟩⟩ false
        .threw).response.headers "X-Content-Type-Options" = false := by
  refine ⟨by decide, by decide, by decide⟩

/-- C8, amended: the POST handler sets the security headers
(`X-Content-Type-Options`, the `X-Frame-Options` frame denial,
`Referrer-Policy`, `Permissions-Policy`) only on its success response;
its failure branches emit none of them.  The middleware, however, applies
this security header set to every response it does not itself reject with
its bare 429 — so handler failures still reach the client under the
middleware's headers. -/
theorem c8_amended :
    (∀ (env : ServerEnv) (st0 : List (String × Nat)) (now : Nat)
        (req : ServerRequest) (clean : Bool) (up : UpstreamOutcome),
      (POSThandler env st0 now req clean up).response.success = true →
      hasHeader (POSThandler env st0 now req clean up).response.headers
          "X-Content-Type-Options" = true ∧
      hasHeader (POSThandler env st0 now req clean up).response.headers
          "X-Frame-Options" = true ∧
      hasHeader (POSThandler env st0 now req clean up).response.headers
          "Referrer-Policy" = true ∧
      hasHeader (POSThandler env st0 now req clean up).response.headers
          "Permissions-Policy" = true) ∧
    (∀ (st : List (String × RateLimitData)) (ip : String) (now : Nat)
        (path : String) (origin : Option String) (nonce : String)
        (siteUrl : Option String),
      (middlewareModel st ip now path origin nonce siteUrl).limited = false →
      hasHeader (middlewareModel st ip now path origin nonce siteUrl).headers
          "X-Content-Type-Options" = true ∧
      hasHeader (middlewareModel st ip now path origin nonce siteUrl).headers
          "X-Frame-Options" = true ∧
      hasHeader (middlewareModel st ip now path origin nonce siteUrl).headers
          "Referrer-Policy" = true ∧
      hasHeader (middlewareModel st ip now path origin nonce siteUrl).headers
          "Permissions-Policy" = true) := by
  constructor
  · intro env st0 now req clean up
    simp only [POSThandler]
    repeat' split
    all_goals intro h
    all_goals simp_all [hasHeader, routeSecurityHeaders]
  · intro st ip now path origin nonce siteUrl
    simp only [middlewareModel]
    repeat' split
    all_goals intro h
    all_goals simp_all [hasHeader, middlewareSecurityHeaders]

/-- C8, witness: the amended theorem applied to a concrete successful
handler call and a concrete middleware pass-through. -/
theorem c8_witness :
    (hasHeader (POSThandler ⟨none, some "rdpk-test"⟩ [] 5000
        ⟨none, "req9", some ⟨some "dog"⟩⟩ false
        (.reply true 200 (some ⟨some ["BBBB"], none⟩))).response.headers
        "X-Content-Type-Options" = true ∧
     hasHeader (POSThandler ⟨none, some "rdpk-test"⟩ [] 5000
        ⟨none, "req9", some ⟨some "dog"⟩⟩ false
        (.reply true 200 (some ⟨some ["BBBB"], none⟩))).response.headers
        "X-Frame-Options" = true ∧
     hasHeader (POSThandler ⟨none, some "rdpk-test"⟩ [] 5000
        ⟨none, "req9", some ⟨some "dog"⟩⟩ false
        (.reply true 200 (some ⟨some ["BBBB"], none⟩))).response.headers
        "Referrer-Policy" = true ∧
     hasHeader (POSThandler ⟨none, some "rdpk-test"⟩ [] 5000
        ⟨none, "req9", some ⟨some "dog"⟩⟩ false
        (.reply true 200 (some ⟨some ["BBBB"], none⟩))).response.headers
        "Permissions-Policy" = true) ∧
    (hasHeader (middlewareModel [] "8.8.8.8" 1000 "/api/generate" none "n" none).headers
        "X-Content-Type-Options" = true ∧
     hasHeader (middlewareModel [] "8.8.8.8" 1000 "/api/generate" none "n" none).headers
        "X-Frame-Options" = true ∧
     hasHeader (middlewareModel [] "8.8.8.8" 1000 "/api/generate" none "n" none).headers
        "Referrer-Policy" = true ∧
     hasHeader (middlewareModel [] "8.8.8.8" 1000 "/api/generate" none "n" none).headers
        "Permissions-Policy" = true) :=
  ⟨c8_amended.1 ⟨none, some "rdpk-test"⟩ [] 5000 ⟨none, "req9", some ⟨some "dog"⟩⟩
     false (.reply true 200 (some ⟨some ["BBBB"], none⟩)) (by decide),
   c8_amended.2 [] "8.8.8.8" 1000 "/api/generate" none "n" none (by decide)⟩

/-! ## Claim C9 — rejected calls leave the guard state unchanged -/

/-- C9: every `generatePixelArt` call that returns without dispatching
the network call — the automatic-call block, empty prompt, session
quota, cache hit, pending duplicate, or cooldown — leaves the entire
guard state (request cache, pending set, both last-request timestamps,
session counter) exactly as it was. -/
theorem c9_frame (auto : Bool) (st : ClientState) (now nowAfter : Nat)
    (prompt : String) (oracle : FetchOutcome) :
    (generatePixelArt auto st now nowAfter prompt oracle).networkCalled = false →
    (generatePixelArt auto st now nowAfter prompt oracle).state = st := by
  simp only [generatePixelArt]
  repeat' split
  all_goals intro h
  all_goals simp_all

/-- C9, witness: a concrete rejected call (empty prompt) makes no network
call and leaves the empty guard state unchanged. -/
theorem c9_witness :
    (generatePixelArt false ⟨[], 0, 0, [], 0⟩ 5000 5000 ""
        (.fetchThrew "boom")).networkCalled = false ∧
    (generatePixelArt false ⟨[], 0, 0, [], 0⟩ 5000 5000 ""
        (.fetchThrew "boom")).state = ⟨[], 0, 0, [], 0⟩ :=
  ⟨by decide,
   c9_frame false ⟨[], 0, 0, [], 0⟩ 5000 5000 "" (.fetchThrew "boom") (by decide)⟩

/-! ## Claim C1 — pending flag cleared on completion -/

/-- The three early-return paths for unparsable response bodies
(retrodiffusion.ts lines 261-287) that skip the pending-flag deletion. -/
def leakyOutcome : FetchOutcome → Bool
  | .got _ _ (.unparsable t) =>
    textHasCreditLimit t || textHasAuthIssue t || textHasValidationIssue t
  | _ => false

/-- C1, counterexample: a call that marks its prompt pending and then
receives an unparsable response whose text matches the credit-limit
patterns returns a failure result with the pending flag still set — the
early `return` (retrodiffusion.ts lines 262-268) skips the deletion, so
a completed call can leave its prompt marked pending. -/
theorem c1_counterexample :
    (generatePixelArt false ⟨[], 0, 0, [], 0⟩ 10000 10001 "cat"
        (.got true 200 (.unparsable "credit limit"))).networkCalled = true ∧
    (generatePixelArt false ⟨[], 0, 0, [], 0⟩ 10000 10001 "cat"
        (.got true 200 (.unparsable "credit limit"))).result.success = false ∧
    (generatePixelArt false ⟨[], 0, 0, [], 0⟩ 10000 10001 "cat"
        (.got true 200 (.unparsable "credit limit"))).state.pendingRequests = ["cat"] := by
  refine ⟨by decide, by decide, by decide⟩

/-- C1, amended: every call that reaches the network phase (and so marked
its normalized prompt pending) restores the pending set to its pre-call
value by the time it returns — except on the three unparsable-body
pattern paths (`leakyOutcome`), where the early return leaks the flag. -/
theorem c1_amended (auto : Bool) (st : ClientState) (now nowAfter : Nat)
    (prompt : String) (oracle : FetchOutcome)
    (hleak : leakyOutcome oracle = false) :
    (generatePixelArt auto st now nowAfter prompt oracle).networkCalled = true →
    (generatePixelArt auto st now nowAfter prompt oracle).state.pendingRequests =
      st.pendingRequests := by
  simp only [generatePixelArt]
  repeat' split
  all_goals intro h
  all_goals simp_all [leakyOutcome, List.erase_cons_head]

/-- C1, witness: a concrete non-leaking network call (the fetch rejects)
clears the pending flag it set. -/
theorem c1_witness :
    (generatePixelArt false ⟨[], 0, 0, [], 0⟩ 10000 10001 "cat"
        (.fetchThrew "boom")).networkCalled = true ∧
    (generatePixelArt false ⟨[], 0, 0, [], 0⟩ 10000 10001 "cat"
        (.fetchThrew "boom")).state.pendingRequests = [] :=
  ⟨by decide,
   c1_amended false ⟨[], 0, 0, [], 0⟩ 10000 10001 "cat" (.fetchThrew "boom")
     (by decide) (by decide)⟩

/-! ## Claim C2 — cache hits short-circuit the network -/

/-- C2, counterexample: the session-quota check runs before the cache
check, so a fresh cache entry does not make the call return the cached
result when the session counter is at its limit: with the counter at 50
the call returns the quota failure, not the cached success. -/
theorem c2_counterexample :
    (generatePixelArt false
        ⟨[("cat", ⟨{imageUrl := "data:image/png;base64,XX", success := true}, 9000⟩)],
         0, 0, [], 50⟩ 10000 0 "cat" (.fetchThrew "unused")).result.message =
      some quotaMsg ∧
    (generatePixelArt false
        ⟨[("cat", ⟨{imageUrl := "data:image/png;base64,XX", success := true}, 9000⟩)],
         0, 0, [], 50⟩ 10000 0 "cat" (.fetchThrew "unused")).result.success = false ∧
    (generatePixelArt false
        ⟨[("cat", ⟨{imageUrl := "data:image/png;base64,XX", success := true}, 9000⟩)],
         0, 0, [], 50⟩ 10000 0 "cat" (.fetchThrew "unused")).result ≠
      {imageUrl := "data:image/png;base64,XX", success := true} := by
  refine ⟨by decide, by decide, by decide⟩

/-- C2, amended: for a user-initiated call with a non-empty trimmed
prompt, provided the session quota has not been reached, a cache entry
for the normalized prompt younger than the 30-minute TTL makes
`generatePixelArt` return exactly the cached result with the state
untouched and no network call — regardless of the pending set and the
cooldown timer; a repeat submission therefore returns contents identical
to the first cached result. -/
theorem c2_amended (st : ClientState) (now nowAfter : Nat) (prompt : String)
    (oracle : FetchOutcome) (e : CacheEntry)
    (htrim : jsTrim prompt ≠ "")
    (hq : st.apiRequestsThisSession < MAX_REQUESTS_PER_SESSION)
    (hcache : alookup st.requestCache (jsToLower (jsTrim prompt)) = some e)
    (hfresh : now - e.timestamp < CACHE_TTL) :
    generatePixelArt false st now nowAfter prompt oracle = ⟨e.result, st, false⟩ := by
  simp [generatePixelArt, htrim, Nat.not_le.mpr hq, cacheLookup, hcache, hfresh]

/-- C2, witness: a concrete cached prompt is served from the cache with
no state change and no network call, even though the same prompt is also
marked pending and the cooldown has not elapsed. -/
theorem c2_witness :
    generatePixelArt false
        ⟨[("cat", ⟨{imageUrl := "data:image/png;base64,XX", success := true}, 9000⟩)],
         9500, 9500, ["cat"], 3⟩ 10000 0 "cat" (.fetchThrew "unused") =
      ⟨{imageUrl := "data:image/png;base64,XX", success := true},
       ⟨[("cat", ⟨{imageUrl := "data:image/png;base64,XX", success := true}, 9000⟩)],
        9500, 9500, ["cat"], 3⟩, false⟩ :=
  c2_amended
    ⟨[("cat", ⟨{imageUrl := "data:image/png;base64,XX", success := true}, 9000⟩)],
     9500, 9500, ["cat"], 3⟩ 10000 0 "cat" (.fetchThrew "unused")
    ⟨{imageUrl := "data:image/png;base64,XX", success := true}, 9000⟩
    (by decide) (by decide) (by decide) (by decide)

/-! ## Claim C7 — cooldown rejection and monotone wait time -/

/-- C7, counterexample: submitting the same prompt twice within the
minimum interval does not always produce the wait-time failure — if the
first call's result was cached, the second call within 3 seconds returns
the cached success, not `success = false` with a wait message. -/
theorem c7_counterexample :
    (generatePixelArt false
        ⟨[("cat", ⟨{imageUrl := "data:image/png;base64,XX", success := true}, 9000⟩)],
         9000, 9000, [], 1⟩ 10000 0 "cat" (.fetchThrew "unused")).result.success =
      true ∧
    (generatePixelArt false
        ⟨[("cat", ⟨{imageUrl := "data:image/png;base64,XX", success := true}, 9000⟩)],
         9000, 9000, [], 1⟩ 10000 0 "cat" (.fetchThrew "unused")).result.message =
      none := by
  refine ⟨by decide, by decide⟩

/-- C7, amended: when the earlier guards pass (user-initiated, non-empty
trimmed prompt, quota not reached, no fresh cache entry, prompt not
pending) and the time since the effective last accepted request is below
the 3-second minimum interval, the call fails with the wait message
computed as `ceil(remaining/1000)` seconds, makes no network call and
changes no state; and for a fixed last-accepted time the reported wait is
monotonically non-increasing as the current time advances. -/
theorem c7_amended (st : ClientState) (now nowAfter : Nat) (prompt : String)
    (oracle : FetchOutcome)
    (htrim : jsTrim prompt ≠ "")
    (hq : st.apiRequestsThisSession < MAX_REQUESTS_PER_SESSION)
    (hcache : cacheLookup st.requestCache (jsToLower (jsTrim prompt)) now = none)
    (hpend : st.pendingRequests.contains (jsToLower (jsTrim prompt)) = false)
    (hcool : now - max st.lastRequestTime st.sessionLastRequestTime <
      MIN_REQUEST_INTERVAL) :
    generatePixelArt false st now nowAfter prompt oracle =
      ⟨{imageUrl := "",
        message := some (waitMsg (waitSeconds
          (max st.lastRequestTime st.sessionLastRequestTime) now)),
        success := false}, st, false⟩ ∧
    (∀ n1 n2 : Nat, max st.lastRequestTime st.sessionLastRequestTime ≤ n1 →
      n1 ≤ n2 →
      waitSeconds (max st.lastRequestTime st.sessionLastRequestTime) n2 ≤
        waitSeconds (max st.lastRequestTime st.sessionLastRequestTime) n1) := by
  have hpend2 : jsToLower (jsTrim prompt) ∉ st.pendingRequests := by
    simpa using hpend
  constructor
  · simp [generatePixelArt, htrim, Nat.not_le.mpr hq, hcache, hpend2, hcool]
  · intro n1 n2 h1 h2
    unfold waitSeconds
    omega

/-- C7, witness: with the last accepted request at 9000 ms and a call at
10000 ms, the call is rejected with a 2-second wait message and the wait
never increases as time advances toward the boundary. -/
theorem c7_witness :
    generatePixelArt false ⟨[], 9000, 9000, [], 1⟩ 10000 0 "cat"
        (.fetchThrew "unused") =
      ⟨{imageUrl := "", message := some (waitMsg (waitSeconds 9000 10000)),
        success := false}, ⟨[], 9000, 9000, [], 1⟩, false⟩ ∧
    waitSeconds 9000 11000 ≤ waitSeconds 9000 10000 :=
  ⟨((c7_amended ⟨[], 9000, 9000, [], 1⟩ 10000 0 "cat" (.fetchThrew "unused")
      (by decide) (by decide) (by decide) (by decide) (by decide)).1),
   ((c7_amended ⟨[], 9000, 9000, [], 1⟩ 10000 0 "cat" (.fetchThrew "unused")
      (by decide) (by decide) (by decide) (by decide) (by decide)).2
     10000 11000 (by decide) (by decide))⟩
